import Mathlib

/-!
Shallow embedding of the supermega.dev repository (two Python files,
`contact-api.py` and `automation-system.py`) and proofs of the spec claims.
The pure data flow of each relevant function is translated into Lean;
external services (Google Sheets, GitHub, the HTTP client, the system
clock, the UUID generator) are modelled as explicit state or parameters.
-/

namespace SuperMega

/- ===================== contact-api.py : data model ===================== -/

/-- Pydantic model `ContactForm` (contact-api.py lines 38-46) after
validation: `name` and `email` are required strings, the four text fields
are optional, `scheduleCall` defaults to false and `source` defaults to
the constant string "contact_form". -/
structure ContactForm where
  name : String
  email : String
  company : Option String
  plan : Option String
  useCase : Option String
  message : Option String
  scheduleCall : Bool
  source : String
deriving Repr, DecidableEq

/-- A raw request body for POST /api/contact before Pydantic validation:
every field may be absent. -/
structure RawContactForm where
  name : Option String
  email : Option String
  company : Option String
  plan : Option String
  useCase : Option String
  message : Option String
  scheduleCall : Option Bool
  source : Option String
deriving Repr, DecidableEq

/-- Split a character list on a separator character (the splitting
underlying the email syntax check). -/
def splitOnChar (sep : Char) : List Char → List (List Char)
  | [] => [[]]
  | c :: cs =>
    let rest := splitOnChar sep cs
    if c == sep then [] :: rest
    else
      match rest with
      | [] => [[c]]
      | g :: gs => (c :: g) :: gs

/-- Syntactic model of Pydantic `EmailStr` validation: one `@` separating
a non-empty local part from a non-empty domain that contains a dot. -/
def isValidEmail (s : String) : Bool :=
  match splitOnChar '@' s.data with
  | [loc, dom] => !loc.isEmpty && !dom.isEmpty && dom.contains '.'
  | _ => false

/-- FastAPI/Pydantic request validation for `ContactForm`: a body with a
missing name, a missing email or a syntactically invalid email is rejected
(`none`); otherwise defaults are filled in (`scheduleCall := false`,
`source := "contact_form"`, lines 45-46). -/
def validateContactForm (raw : RawContactForm) : Option ContactForm :=
  match raw.name, raw.email with
  | some n, some e =>
      if isValidEmail e then
        some { name := n, email := e, company := raw.company, plan := raw.plan,
               useCase := raw.useCase, message := raw.message,
               scheduleCall := raw.scheduleCall.getD false,
               source := raw.source.getD "contact_form" }
      else none
  | _, _ => none

/-- The `contact_data` dict built in `submit_contact_form`
(contact-api.py lines 86-98), with its eleven fields. -/
structure ContactData where
  id : String
  timestamp : String
  name : String
  email : String
  company : String
  plan : String
  use_case : String
  message : String
  schedule_call : Bool
  source : String
  status : String
deriving Repr, DecidableEq

/-- Python `x or ""` on an optional string: absent becomes the empty
string (lines 91-94). -/
def orEmpty (o : Option String) : String := o.getD ""

/-- Build the `contact_data` dict exactly as lines 86-98 do. -/
def buildContactData (form : ContactForm) (contact_id timestamp : String) : ContactData :=
  { id := contact_id
    timestamp := timestamp
    name := form.name
    email := form.email
    company := orEmpty form.company
    plan := orEmpty form.plan
    use_case := orEmpty form.useCase
    message := orEmpty form.message
    schedule_call := form.scheduleCall
    source := form.source
    status := "new" }

/-- `list(contact_data.keys())` in insertion order (lines 86-98): the
field names of the contact record. -/
def contactDataKeys : List String :=
  ["id", "timestamp", "name", "email", "company", "plan", "use_case",
   "message", "schedule_call", "source", "status"]

/-- A spreadsheet cell: the dict values are strings except the boolean
`schedule_call`. -/
inductive Cell where
  | str (s : String)
  | boolean (b : Bool)
deriving Repr, DecidableEq

/-- `list(contact_data.values())` in insertion order (lines 86-98). -/
def contactDataValues (d : ContactData) : List Cell :=
  [.str d.id, .str d.timestamp, .str d.name, .str d.email, .str d.company,
   .str d.plan, .str d.use_case, .str d.message, .boolean d.schedule_call,
   .str d.source, .str d.status]

/-- Field lookup by name in the contact record, used to state that the
data row lists the values in the same order as the header names. -/
def contactField (d : ContactData) : String → Option Cell
  | "id" => some (.str d.id)
  | "timestamp" => some (.str d.timestamp)
  | "name" => some (.str d.name)
  | "email" => some (.str d.email)
  | "company" => some (.str d.company)
  | "plan" => some (.str d.plan)
  | "use_case" => some (.str d.use_case)
  | "message" => some (.str d.message)
  | "schedule_call" => some (.boolean d.schedule_call)
  | "source" => some (.str d.source)
  | "status" => some (.str d.status)
  | _ => none

/- ===================== contact-api.py : endpoints ===================== -/

/-- The four kinds of background effect `submit_contact_form` can
schedule via `background_tasks.add_task` (lines 100-106). -/
inductive BackgroundTask where
  | saveToGoogleSheets (data : ContactData)
  | sendConfirmationEmail (email name : String)
  | notifyTeam (data : ContactData)
  | createCalendarBookingLink (email name : String)
deriving Repr, DecidableEq

/-- The JSON body returned by POST /api/contact (lines 108-112). -/
structure ContactResponse where
  success : Bool
  message : String
  contact_id : String
deriving Repr, DecidableEq

/-- Handler body of `submit_contact_form` (contact-api.py lines 74-115).
The generated `uuid.uuid4()` string and `datetime.now().isoformat()` are
passed in as `freshUuid` and `timestamp`. Returns the response together
with the list of scheduled background tasks, in scheduling order. -/
def submit_contact_form (form : ContactForm) (freshUuid timestamp : String) :
    ContactResponse × List BackgroundTask :=
  let contact_id := freshUuid
  let contact_data := buildContactData form contact_id timestamp
  let tasks :=
    [BackgroundTask.saveToGoogleSheets contact_data,
     BackgroundTask.sendConfirmationEmail form.email form.name,
     BackgroundTask.notifyTeam contact_data] ++
    (if form.scheduleCall then
       [BackgroundTask.createCalendarBookingLink form.email form.name]
     else [])
  ({ success := true
     message := "Contact form submitted successfully"
     contact_id := contact_id }, tasks)

/-- Full request pipeline for POST /api/contact: Pydantic validation runs
before the handler, so an invalid body is rejected with status 422 and no
background task is ever scheduled (the error branch carries no task
list). -/
def processContactRequest (raw : RawContactForm) (freshUuid timestamp : String) :
    Except Nat (ContactResponse × List BackgroundTask) :=
  match validateContactForm raw with
  | none => .error 422
  | some form => .ok (submit_contact_form form freshUuid timestamp)

/-- One field of the Slack webhook attachment built by `notify_team`. -/
structure SlackField where
  title : String
  value : String
  short : Bool
deriving Repr, DecidableEq

/-- Python `x or "N/A"` on a string (lines 234-236). -/
def orNA (s : String) : String := if s == "" then "N/A" else s

/-- The `fields` list of the Slack webhook payload built by `notify_team`
(contact-api.py lines 226-242). The Message value is
`contact_data["message"][:200] + "..."` when the message is longer than
200 characters, else the message itself (line 238). -/
def notify_team (d : ContactData) : List SlackField :=
  [ { title := "Name", value := d.name, short := true },
    { title := "Email", value := d.email, short := true },
    { title := "Company", value := orNA d.company, short := true },
    { title := "Plan", value := orNA d.plan, short := true },
    { title := "Use Case", value := orNA d.use_case, short := true },
    { title := "Schedule Call", value := if d.schedule_call then "Yes" else "No", short := true },
    { title := "Message",
      value := if d.message.length > 200 then d.message.take 200 ++ "..." else d.message,
      short := false } ]

/-- State of the external Google Sheets store: `none` when the
"Super Mega Contacts" spreadsheet with its "leads" worksheet cannot be
opened (does not exist yet), `some rows` when it exists and holds the
given rows. -/
abbrev SheetsState := Option (List (List Cell))

/-- `save_to_google_sheets` (contact-api.py lines 117-143). `clientOk`
models whether `get_google_sheets_client` succeeded; on a failed client
initialisation the function returns early and the store is untouched.
The inner try opens the worksheet; its except branch creates the
spreadsheet and worksheet and appends the header row of field names
before the data row is appended. The whole body is wrapped in a broad
try/except that logs, so the function is total and never propagates a
failure. -/
def save_to_google_sheets (clientOk : Bool) (st : SheetsState) (d : ContactData) : SheetsState :=
  if !clientOk then st
  else
    match st with
    | some rows => some (rows ++ [contactDataValues d])
    | none => some ([contactDataKeys.map Cell.str] ++ [contactDataValues d])

/-- JWT payload fields read by `google_auth` via `.get` (so each may be
absent). -/
structure JwtPayload where
  email : Option String
  name : Option String
  picture : Option String
  sub : Option String
deriving Repr, DecidableEq

/-- A well-formed JWT credential as seen by `jwt.decode` with
`verify_signature: False`: the decodable payload (or `none` when the
token cannot be decoded at all) together with its signature part, which
unverified decoding never reads. -/
structure JwtCredential where
  payload : Option JwtPayload
  signature : String
deriving Repr, DecidableEq

/-- `jwt.decode(credential, options={verify_signature: False})`
(contact-api.py lines 295-298): returns the payload whenever the token
decodes, ignoring the signature entirely; raises only when the token
cannot be decoded. -/
def jwt_decode_unverified (c : JwtCredential) : Option JwtPayload := c.payload

/-- Pydantic model `GoogleAuthResponse` (lines 48-50). -/
structure GoogleAuthRequest where
  credential : JwtCredential
  client_id : String
deriving Repr, DecidableEq

/-- The `user_data` dict built by `google_auth` (lines 300-305). -/
structure AuthUser where
  email : Option String
  name : Option String
  picture : Option String
  google_id : Option String
deriving Repr, DecidableEq

/-- Successful response body of POST /api/auth/google (lines 310-314). -/
structure AuthSuccess where
  success : Bool
  user : AuthUser
  session_token : String
deriving Repr, DecidableEq

/-- Handler `google_auth` (contact-api.py lines 287-317): decode the
credential without signature verification; on failure return HTTP 400,
on success return the extracted profile fields and a freshly generated
session token (`uuid.uuid4()`, passed in as `freshUuid`). -/
def google_auth (auth_data : GoogleAuthRequest) (freshUuid : String) : Except Nat AuthSuccess :=
  match jwt_decode_unverified auth_data.credential with
  | none => .error 400
  | some p =>
      .ok { success := true
            user := { email := p.email, name := p.name, picture := p.picture, google_id := p.sub }
            session_token := freshUuid }

/-- Response body of GET /api/health (contact-api.py lines 370-377):
built unconditionally from the current time. -/
structure HealthResponse where
  status : String
  timestamp : String
  version : String
deriving Repr, DecidableEq

/-- Handler `health_check` (lines 370-377). -/
def health_check (now : String) : HealthResponse :=
  { status := "healthy", timestamp := now, version := "3.0" }

/- ===================== automation-system.py ===================== -/

/-- GitHub repository contents as seen through `get_contents` /
`create_file` / `update_file`: an association list of path and file
content. -/
abbrev RepoFiles := List (String × String)

/-- `repo.get_contents(path)`: the first entry at the path, or a raised
404 modelled as `none`. -/
def get_contents : RepoFiles → String → Option String
  | [], _ => none
  | e :: rest, path => if e.1 == path then some e.2 else get_contents rest path

/-- `repo.update_file(path, message, content, sha)`: overwrite the
content stored at the path. -/
def update_file (files : RepoFiles) (path content : String) : RepoFiles :=
  files.map (fun e => if e.1 == path then (e.1, content) else e)

/-- Outcome of one `create_or_update_file` call, as logged on lines
153 and 157. -/
inductive PushOutcome where
  | updated
  | created
deriving Repr, DecidableEq

/-- `create_or_update_file` (automation-system.py lines 146-159): try to
read the existing file; if it exists, overwrite it via the update path,
otherwise create it. The surrounding try/except logs any failure instead
of raising, so the function is total. -/
def create_or_update_file (files : RepoFiles) (path content : String) :
    RepoFiles × PushOutcome :=
  match get_contents files path with
  | some _ => (update_file files path content, .updated)
  | none => (files ++ [(path, content)], .created)

/-- Result of the one HTTP GET of a health-poll iteration: a response
with a status code observed at `endTime`, or a raised network error. -/
inductive FetchResult where
  | response (status : Nat) (endTime : Nat)
  | netError (msg : String)
deriving Repr, DecidableEq

/-- The log line an iteration of `monitor_website_performance` emits. -/
inductive HealthLog where
  | healthy (loadTime : Int)
  | warning (status : Nat)
  | error (msg : String)
deriving Repr, DecidableEq

/-- Observable outcome of one iteration: the log entry and the length of
the sleep that follows it. -/
structure MonitorEvent where
  log : HealthLog
  sleepSeconds : Nat
deriving Repr, DecidableEq

/-- One iteration of the while-True body of `monitor_website_performance`
(automation-system.py lines 375-393): `startTime` is `time.time()` before
the GET; a 200 response logs healthy with load time `endTime - startTime`,
any other status logs a warning, a network failure is caught and logged
as an error; the iteration then sleeps 300 seconds. Total: no exception
leaves the loop body. -/
def monitor_website_performance_iteration (startTime : Nat) (r : FetchResult) : MonitorEvent :=
  match r with
  | .response status endTime =>
      if status == 200 then
        { log := .healthy ((endTime : Int) - (startTime : Int)), sleepSeconds := 300 }
      else
        { log := .warning status, sleepSeconds := 300 }
  | .netError m => { log := .error m, sleepSeconds := 300 }

/-- The poll loop run over a stream of fetch results: each iteration
issues exactly one GET (consumes exactly one sample) and the loop never
stops on its own, so every sample of the stream is processed. -/
def monitor_website_performance (samples : List (Nat × FetchResult)) : List MonitorEvent :=
  samples.map (fun p => monitor_website_performance_iteration p.1 p.2)

/-- Outcome of one maintenance task: normal return or a raised
exception. -/
inductive TaskResult where
  | ok
  | failed (msg : String)
deriving Repr, DecidableEq

/-- `daily_maintenance` (automation-system.py lines 422-434): gathers the
five maintenance tasks with `return_exceptions=True`, so every task
exception is captured as a value and the call itself never raises; the
gathered results are discarded without being logged (line 434). The task
bodies themselves are not present in the source, so their outcomes are
inputs. -/
def daily_maintenance (outcomes : List TaskResult) : List TaskResult := outcomes

/-- Observable outcome of one iteration of `automation_loop`. -/
structure IterationResult where
  dailyRan : Bool
  dailyResults : List TaskResult
  hourlyRan : Bool
  continuousRan : Bool
  loggedErrors : List String
  sleepSeconds : Nat
deriving Repr, DecidableEq

/-- One iteration of `automation_loop` (automation-system.py lines
402-420): run `daily_maintenance` when the wall-clock hour is 9, run the
hourly batch when the wall-clock minute is 0, always run the continuous
monitoring step, catch and log any exception reaching the loop body, then
sleep 60 seconds. `hourly_checks` and `continuous_monitoring` are
Modelled from the spec: their bodies are absent from the source, and per
the spec (section 4.4) they are placeholder batches that return normally,
so in every iteration nothing reaches the outer except handler: the
captured daily failures are swallowed silently and `loggedErrors` stays
empty. -/
def automation_loop_iteration (hour minute : Nat) (dailyOutcomes : List TaskResult) :
    IterationResult :=
  { dailyRan := hour == 9
    dailyResults := if hour == 9 then daily_maintenance dailyOutcomes else []
    hourlyRan := minute == 0
    continuousRan := true
    loggedErrors := []
    sleepSeconds := 60 }

/- ===================== example inputs ===================== -/

/-- A concrete valid request body: the end-to-end example of the spec. -/
def exampleRaw : RawContactForm :=
  { name := some "Ann", email := some "ann@x.com", company := none, plan := none,
    useCase := none, message := none, scheduleCall := some true, source := none }

/-- The validated form for `exampleRaw`. -/
def exampleForm : ContactForm :=
  { name := "Ann", email := "ann@x.com", company := none, plan := none,
    useCase := none, message := none, scheduleCall := true, source := "contact_form" }

/-- A concrete body whose email is syntactically invalid. -/
def exampleBad : RawContactForm :=
  { name := some "Bob", email := some "not-an-email", company := none, plan := none,
    useCase := none, message := none, scheduleCall := none, source := none }

/-- A contact record whose message is 201 characters long. -/
def exampleLongContact : ContactData :=
  { id := "id-1", timestamp := "t", name := "Ann", email := "ann@x.com",
    company := "", plan := "", use_case := "",
    message := String.mk (List.replicate 201 'a'),
    schedule_call := false, source := "contact_form", status := "new" }

/-- A contact record whose message is short. -/
def exampleShortContact : ContactData :=
  { id := "id-2", timestamp := "t", name := "Ann", email := "ann@x.com",
    company := "", plan := "", use_case := "", message := "hello",
    schedule_call := false, source := "contact_form", status := "new" }

/-- A concrete JWT payload. -/
def examplePayload : JwtPayload :=
  { email := some "ann@x.com", name := some "Ann",
    picture := some "p.png", sub := some "g-123" }

/-- The payload with its genuine signature. -/
def exampleCredGood : GoogleAuthRequest :=
  { credential := { payload := some examplePayload, signature := "genuine" },
    client_id := "cid" }

/-- The same payload with a forged signature. -/
def exampleCredForged : GoogleAuthRequest :=
  { credential := { payload := some examplePayload, signature := "forged" },
    client_id := "cid" }

/- ===================== helper lemmas ===================== -/

lemma validate_source_default (raw : RawContactForm) (f : ContactForm)
    (hform : validateContactForm raw = some f) (hsrc : raw.source = none) :
    f.source = "contact_form" := by
  rcases hn : raw.name with _ | n <;> rcases he : raw.email with _ | e <;>
    simp [validateContactForm, hn, he] at hform
  obtain ⟨hv, hf⟩ := hform
  subst hf
  simp [hsrc]

lemma validate_rejects_bad_email (bad : RawContactForm) (e : String)
    (hbad : bad.email = none ∨ (bad.email = some e ∧ isValidEmail e = false)) :
    validateContactForm bad = none := by
  rcases hbad with hb | ⟨hb, hbv⟩
  · rcases hn : bad.name with _ | n <;> simp [validateContactForm, hn, hb]
  · rcases hn : bad.name with _ | n <;> simp [validateContactForm, hn, hb, hbv]

lemma get_contents_append_fresh (files : RepoFiles) (p c : String)
    (h : get_contents files p = none) :
    get_contents (files ++ [(p, c)]) p = some c := by
  induction files with
  | nil => simp [get_contents]
  | cons e rest ih =>
    simp only [List.cons_append, get_contents] at h ⊢
    by_cases he : (e.1 == p) = true
    · rw [if_pos he] at h
      exact absurd h (by simp)
    · rw [if_neg he] at h
      rw [if_neg he]
      exact ih h

lemma get_contents_update_self (files : RepoFiles) (p c : String)
    (h : (get_contents files p).isSome) :
    get_contents (update_file files p c) p = some c := by
  induction files with
  | nil => simp [get_contents] at h
  | cons e rest ih =>
    simp only [update_file, List.map_cons]
    by_cases he : (e.1 == p) = true
    · rw [if_pos he]
      simp only [get_contents]
      rw [if_pos he]
    · rw [if_neg he]
      simp only [get_contents]
      rw [if_neg he]
      simp only [update_file] at ih
      apply ih
      simp only [get_contents] at h
      rw [if_neg he] at h
      exact h

lemma update_file_append_fresh (files : RepoFiles) (p c : String)
    (h : get_contents files p = none) :
    update_file (files ++ [(p, c)]) p c = files ++ [(p, c)] := by
  induction files with
  | nil => simp [update_file]
  | cons e rest ih =>
    simp only [get_contents] at h
    by_cases he : (e.1 == p) = true
    · rw [if_pos he] at h
      exact absurd h (by simp)
    · rw [if_neg he] at h
      simp only [List.cons_append, update_file, List.map_cons]
      rw [if_neg he]
      have hrest := ih h
      simp only [update_file] at hrest
      rw [hrest]

lemma update_file_idem (files : RepoFiles) (p c : String) :
    update_file (update_file files p c) p c = update_file files p c := by
  induction files with
  | nil => rfl
  | cons e rest ih =>
    simp only [update_file, List.map_cons] at ih ⊢
    by_cases he : (e.1 == p) = true <;>
      simp [he, ih] <;>
      intro a b hmem h2 <;>
      by_cases hap : a = p <;>
      simp [hap] at h2 ⊢

/- ===================== theorems ===================== -/

/-- C10: every call to GET /api/health returns status "healthy" and
version "3.0" together with the current timestamp, unconditionally: the
handler consults no state and has no error branch. -/
theorem C10_health_check (now : String) :
    (health_check now).status = "healthy" ∧
    (health_check now).version = "3.0" ∧
    (health_check now).timestamp = now :=
  ⟨rfl, rfl, rfl⟩

/-- C1: for every syntactically valid submission, POST /api/contact
returns success true, the message "Contact form submitted successfully"
and a non-empty contact_id equal to the fresh UUID generated for the
request, hence unique across submissions with distinct fresh UUIDs; a
body with a missing or syntactically invalid email is rejected by model
validation with status 422 and no background task is scheduled. -/
theorem C1_contact_submission (raw bad : RawContactForm) (form : ContactForm)
    (u1 u2 ts1 ts2 e : String)
    (hform : validateContactForm raw = some form)
    (hu : u1 ≠ "") (hne : u1 ≠ u2)
    (hbad : bad.email = none ∨ (bad.email = some e ∧ isValidEmail e = false)) :
    processContactRequest raw u1 ts1 = .ok (submit_contact_form form u1 ts1) ∧
    (submit_contact_form form u1 ts1).1.success = true ∧
    (submit_contact_form form u1 ts1).1.message = "Contact form submitted successfully" ∧
    (submit_contact_form form u1 ts1).1.contact_id = u1 ∧
    (submit_contact_form form u1 ts1).1.contact_id ≠ "" ∧
    (submit_contact_form form u1 ts1).1.contact_id ≠ (submit_contact_form form u2 ts2).1.contact_id ∧
    processContactRequest bad u1 ts1 = .error 422 := by
  refine ⟨?_, rfl, rfl, rfl, hu, hne, ?_⟩
  · simp [processContactRequest, hform]
  · simp [processContactRequest, validate_rejects_bad_email bad e hbad]

/-- C1 witness: the spec's end-to-end example at concrete inputs. -/
theorem C1_contact_submission_witness :
    processContactRequest exampleRaw "uuid-1" "t1" =
      .ok (submit_contact_form exampleForm "uuid-1" "t1") ∧
    (submit_contact_form exampleForm "uuid-1" "t1").1.success = true ∧
    (submit_contact_form exampleForm "uuid-1" "t1").1.message = "Contact form submitted successfully" ∧
    (submit_contact_form exampleForm "uuid-1" "t1").1.contact_id = "uuid-1" ∧
    (submit_contact_form exampleForm "uuid-1" "t1").1.contact_id ≠ "" ∧
    (submit_contact_form exampleForm "uuid-1" "t1").1.contact_id ≠
      (submit_contact_form exampleForm "uuid-2" "t2").1.contact_id ∧
    processContactRequest exampleBad "uuid-1" "t1" = .error 422 :=
  C1_contact_submission exampleRaw exampleBad exampleForm "uuid-1" "uuid-2" "t1" "t2"
    "not-an-email" (by decide) (by decide) (by decide)
    (Or.inr ⟨rfl, by decide⟩)

/-- C2: every accepted submission schedules exactly the three baseline
background effects (sheet append, confirmation email, team webhook) when
scheduleCall is false, and exactly those three plus the calendar booking
link effect (four total) when scheduleCall is true; no other effect list
is possible. -/
theorem C2_background_task_count (form : ContactForm) (u ts : String) :
    (submit_contact_form form u ts).2.length = (if form.scheduleCall then 4 else 3) ∧
    (submit_contact_form form u ts).2 =
      [BackgroundTask.saveToGoogleSheets (buildContactData form u ts),
       BackgroundTask.sendConfirmationEmail form.email form.name,
       BackgroundTask.notifyTeam (buildContactData form u ts)] ++
      (if form.scheduleCall then
         [BackgroundTask.createCalendarBookingLink form.email form.name]
       else []) := by
  cases h : form.scheduleCall <;> simp [submit_contact_form, h]

/-- C3: in the team webhook payload built by notify_team, the Message
field holds the first 200 characters of the message followed by "..."
when the message is longer than 200 characters, and the message verbatim
when its length is at most 200. -/
theorem C3_notify_team_truncation (d dShort : ContactData)
    (h200 : 200 < d.message.length) (hshort : dShort.message.length ≤ 200) :
    (notify_team d).find? (fun f => f.title == "Message") =
      some { title := "Message", value := d.message.take 200 ++ "...", short := false } ∧
    (notify_team dShort).find? (fun f => f.title == "Message") =
      some { title := "Message", value := dShort.message, short := false } := by
  constructor
  · simp [notify_team, List.find?, h200]
  · simp [notify_team, List.find?, Nat.not_lt.mpr hshort]

set_option maxRecDepth 10000 in
/-- C3 witness: concrete records with a 201-character and a 5-character
message. -/
theorem C3_notify_team_truncation_witness :
    (notify_team exampleLongContact).find? (fun f => f.title == "Message") =
      some { title := "Message",
             value := (String.mk (List.replicate 201 'a')).take 200 ++ "...",
             short := false } ∧
    (notify_team exampleShortContact).find? (fun f => f.title == "Message") =
      some { title := "Message", value := "hello", short := false } :=
  C3_notify_team_truncation exampleLongContact exampleShortContact (by decide) (by decide)

/-- C9: the contact record has exactly the eleven fields id, timestamp,
name, email, company, plan, use_case, message, schedule_call, source,
status; status is always "new"; source defaults to "contact_form" when
the request omits it; and each omitted optional text field is stored as
the empty string. -/
theorem C9_contact_record_fields (form f : ContactForm) (u ts : String)
    (raw : RawContactForm)
    (hform : validateContactForm raw = some f) (hsrc : raw.source = none)
    (hc : form.company = none) (hp : form.plan = none)
    (huse : form.useCase = none) (hm : form.message = none) :
    contactDataKeys = ["id", "timestamp", "name", "email", "company", "plan",
      "use_case", "message", "schedule_call", "source", "status"] ∧
    contactDataKeys.length = 11 ∧
    (contactDataValues (buildContactData form u ts)).length = 11 ∧
    (buildContactData form u ts).status = "new" ∧
    (buildContactData f u ts).source = "contact_form" ∧
    (buildContactData form u ts).company = "" ∧
    (buildContactData form u ts).plan = "" ∧
    (buildContactData form u ts).use_case = "" ∧
    (buildContactData form u ts).message = "" := by
  refine ⟨rfl, rfl, rfl, rfl, ?_, ?_, ?_, ?_, ?_⟩
  · show f.source = "contact_form"
    exact validate_source_default raw f hform hsrc
  · simp [buildContactData, orEmpty, hc]
  · simp [buildContactData, orEmpty, hp]
  · simp [buildContactData, orEmpty, huse]
  · simp [buildContactData, orEmpty, hm]

/-- C9 witness: the example request, which omits every optional field. -/
theorem C9_contact_record_fields_witness :
    contactDataKeys = ["id", "timestamp", "name", "email", "company", "plan",
      "use_case", "message", "schedule_call", "source", "status"] ∧
    contactDataKeys.length = 11 ∧
    (contactDataValues (buildContactData exampleForm "uuid-1" "t1")).length = 11 ∧
    (buildContactData exampleForm "uuid-1" "t1").status = "new" ∧
    (buildContactData exampleForm "uuid-1" "t1").source = "contact_form" ∧
    (buildContactData exampleForm "uuid-1" "t1").company = "" ∧
    (buildContactData exampleForm "uuid-1" "t1").plan = "" ∧
    (buildContactData exampleForm "uuid-1" "t1").use_case = "" ∧
    (buildContactData exampleForm "uuid-1" "t1").message = "" :=
  C9_contact_record_fields exampleForm exampleForm "uuid-1" "t1" exampleRaw
    (by decide) rfl rfl rfl rfl rfl

/-- C4: when the worksheet cannot be opened, save_to_google_sheets
creates it and appends first a header row whose cells are exactly the
contact record's field names and then the data row; when the worksheet
exists it appends only the data row; the data row lists the values in
the same order as the header field names; and a failed client
initialisation is caught and logged, leaving the store untouched, so no
failure propagates to the caller. -/
theorem C4_save_to_google_sheets (st : SheetsState) (rows : List (List Cell))
    (d : ContactData) :
    save_to_google_sheets true none d =
      some [contactDataKeys.map Cell.str, contactDataValues d] ∧
    save_to_google_sheets true (some rows) d = some (rows ++ [contactDataValues d]) ∧
    contactDataValues d =
      contactDataKeys.map (fun k => (contactField d k).getD (.str "")) ∧
    save_to_google_sheets false st d = st := by
  refine ⟨rfl, rfl, ?_, rfl⟩
  rfl

/-- C5: create_or_update_file overwrites an existing path via the update
path and creates a missing path; after any push the path holds the pushed
content, and a second push of the same path and content takes the
"updated" branch and leaves the repository unchanged: no duplicate-create
error is possible. -/
theorem C5_create_or_update_file_idempotent (files : RepoFiles)
    (path content old : String) :
    (get_contents files path = some old →
      create_or_update_file files path content =
        (update_file files path content, .updated)) ∧
    (get_contents files path = none →
      create_or_update_file files path content =
        (files ++ [(path, content)], .created)) ∧
    get_contents (create_or_update_file files path content).1 path = some content ∧
    create_or_update_file (create_or_update_file files path content).1 path content =
      ((create_or_update_file files path content).1, .updated) := by
  refine ⟨?_, ?_, ?_, ?_⟩
  · intro h
    simp [create_or_update_file, h]
  · intro h
    simp [create_or_update_file, h]
  · cases hg : get_contents files path with
    | none =>
      simp only [create_or_update_file, hg]
      exact get_contents_append_fresh files path content hg
    | some v =>
      simp only [create_or_update_file, hg]
      exact get_contents_update_self files path content (by rw [hg]; rfl)
  · cases hg : get_contents files path with
    | none =>
      have h1 := get_contents_append_fresh files path content hg
      simp only [create_or_update_file, hg, h1]
      rw [update_file_append_fresh files path content hg]
    | some v =>
      have h1 := get_contents_update_self files path content (by rw [hg]; rfl)
      simp only [create_or_update_file, hg, h1]
      rw [update_file_idem files path content]

/-- C5 witness: pushing README.md twice with the same content: first
created, then updated with the repository unchanged. -/
theorem C5_create_or_update_file_idempotent_witness :
    create_or_update_file [] "README.md" "readme-v1" =
      ([("README.md", "readme-v1")], .created) ∧
    get_contents (create_or_update_file [] "README.md" "readme-v1").1 "README.md" =
      some "readme-v1" ∧
    create_or_update_file (create_or_update_file [] "README.md" "readme-v1").1
        "README.md" "readme-v1" =
      ((create_or_update_file [] "README.md" "readme-v1").1, .updated) :=
  ⟨(C5_create_or_update_file_idempotent [] "README.md" "readme-v1" "").2.1 rfl,
   (C5_create_or_update_file_idempotent [] "README.md" "readme-v1" "").2.2.1,
   (C5_create_or_update_file_idempotent [] "README.md" "readme-v1" "").2.2.2⟩

/-- C6: each iteration of the health poller consumes exactly one fetch
outcome (one HTTP GET), classifies a 200 response as healthy with a
non-negative load time, any other status as a warning and a network
failure as a logged error, never raises, then sleeps 300 seconds; the
loop processes every sample of the stream. -/
theorem C6_monitor_website_performance (samples : List (Nat × FetchResult))
    (startTime : Nat) (r : FetchResult) (status endTime : Nat) (m : String)
    (hclock : startTime ≤ endTime) :
    (monitor_website_performance samples).length = samples.length ∧
    (monitor_website_performance_iteration startTime r).sleepSeconds = 300 ∧
    (status = 200 →
      monitor_website_performance_iteration startTime (.response status endTime) =
        { log := .healthy ((endTime : Int) - (startTime : Int)), sleepSeconds := 300 } ∧
      0 ≤ (endTime : Int) - (startTime : Int)) ∧
    (status ≠ 200 →
      monitor_website_performance_iteration startTime (.response status endTime) =
        { log := .warning status, sleepSeconds := 300 }) ∧
    monitor_website_performance_iteration startTime (.netError m) =
      { log := .error m, sleepSeconds := 300 } := by
  refine ⟨by simp [monitor_website_performance], ?_, ?_, ?_, rfl⟩
  · cases r with
    | response s t =>
      by_cases hs : (s == 200) = true <;>
        simp [monitor_website_performance_iteration, hs]
    | netError m2 => rfl
  · intro hs
    subst hs
    refine ⟨by simp [monitor_website_performance_iteration], ?_⟩
    omega
  · intro hs
    simp [monitor_website_performance_iteration, hs]

/-- C6 witness: a healthy poll, a 500 poll and a network failure at
concrete times. -/
theorem C6_monitor_website_performance_witness :
    (monitor_website_performance [(100, FetchResult.response 200 103)]).length = 1 ∧
    (monitor_website_performance_iteration 100 (FetchResult.response 200 103) =
      { log := .healthy ((103 : Int) - (100 : Int)), sleepSeconds := 300 } ∧
      0 ≤ (103 : Int) - (100 : Int)) ∧
    monitor_website_performance_iteration 103 (FetchResult.response 500 104) =
      { log := .warning 500, sleepSeconds := 300 } ∧
    monitor_website_performance_iteration 104 (FetchResult.netError "timeout") =
      { log := .error "timeout", sleepSeconds := 300 } :=
  ⟨(C6_monitor_website_performance [(100, FetchResult.response 200 103)]
      100 (FetchResult.response 200 103) 200 103 "timeout" (by decide)).1,
   (C6_monitor_website_performance [(100, FetchResult.response 200 103)]
      100 (FetchResult.response 200 103) 200 103 "timeout" (by decide)).2.2.1 rfl,
   (C6_monitor_website_performance [(100, FetchResult.response 200 103)]
      103 (FetchResult.response 500 104) 500 104 "timeout" (by decide)).2.2.2.1 (by decide),
   (C6_monitor_website_performance [(100, FetchResult.response 200 103)]
      104 (FetchResult.netError "timeout") 500 104 "timeout" (by decide)).2.2.2.2⟩

/-- C7 counterexample: at wall-clock hour 9 a maintenance task raising an
exception is captured by the gather with return_exceptions set and then
discarded: the iteration logs nothing, refuting the claim that every
exception arising in an iteration (including ones thrown inside the
maintenance batches) is logged. -/
theorem C7_automation_loop_counterexample :
    (automation_loop_iteration 9 5 [TaskResult.failed "boom",
      TaskResult.ok, TaskResult.ok, TaskResult.ok, TaskResult.ok]).dailyRan = true ∧
    TaskResult.failed "boom" ∈
      (automation_loop_iteration 9 5 [TaskResult.failed "boom",
        TaskResult.ok, TaskResult.ok, TaskResult.ok, TaskResult.ok]).dailyResults ∧
    (automation_loop_iteration 9 5 [TaskResult.failed "boom",
      TaskResult.ok, TaskResult.ok, TaskResult.ok, TaskResult.ok]).loggedErrors = [] := by
  refine ⟨rfl, ?_, rfl⟩
  simp [automation_loop_iteration, daily_maintenance]

/-- C7 (amended): the automation loop iterates once per minute forever;
the daily maintenance batch runs exactly when the wall-clock hour is 9,
the hourly batch exactly when the wall-clock minute is 0, the continuous
monitoring placeholder always runs, and the loop never terminates or
raises: exceptions thrown by tasks inside the daily maintenance batch
are individually captured by the gather and silently discarded (swallowed
but not logged), and nothing reaches the outer exception handler. -/
theorem C7_automation_loop_amended (hour minute : Nat)
    (outcomes : List TaskResult) :
    (automation_loop_iteration hour minute outcomes).dailyRan = (hour == 9) ∧
    (automation_loop_iteration hour minute outcomes).hourlyRan = (minute == 0) ∧
    (automation_loop_iteration hour minute outcomes).continuousRan = true ∧
    (automation_loop_iteration hour minute outcomes).sleepSeconds = 60 ∧
    (automation_loop_iteration hour minute outcomes).dailyResults =
      (if hour == 9 then outcomes else []) ∧
    (automation_loop_iteration hour minute outcomes).loggedErrors = [] :=
  ⟨rfl, rfl, rfl, rfl, rfl, rfl⟩

/-- C8: google_auth decodes the supplied credential without verifying its
signature, so two well-formed credentials with identical payloads and
different signatures yield the same extracted profile fields with success
true; only a credential that fails to decode yields HTTP 400; and each
successful call returns the freshly generated session token. -/
theorem C8_google_auth_unverified (a1 a2 : GoogleAuthRequest) (u : String)
    (p : JwtPayload)
    (hpay : a1.credential.payload = a2.credential.payload) :
    (google_auth a1 u).map AuthSuccess.user = (google_auth a2 u).map AuthSuccess.user ∧
    (a1.credential.payload = some p →
      google_auth a1 u =
        .ok { success := true
              user := { email := p.email, name := p.name,
                        picture := p.picture, google_id := p.sub }
              session_token := u }) ∧
    (a1.credential.payload = none → google_auth a1 u = .error 400) := by
  refine ⟨?_, ?_, ?_⟩
  · simp only [google_auth, jwt_decode_unverified, hpay]
  · intro hp
    simp [google_auth, jwt_decode_unverified, hp]
  · intro hp
    simp [google_auth, jwt_decode_unverified, hp]

/-- C8 witness: the same payload signed correctly and with a forged
signature produces identical profile fields and the supplied session
token. -/
theorem C8_google_auth_unverified_witness :
    (google_auth exampleCredGood "tok-1").map AuthSuccess.user =
      (google_auth exampleCredForged "tok-1").map AuthSuccess.user ∧
    google_auth exampleCredGood "tok-1" =
      .ok { success := true
            user := { email := some "ann@x.com", name := some "Ann",
                      picture := some "p.png", google_id := some "g-123" }
            session_token := "tok-1" } :=
  ⟨(C8_google_auth_unverified exampleCredGood exampleCredForged "tok-1"
      examplePayload rfl).1,
   (C8_google_auth_unverified exampleCredGood exampleCredForged "tok-1"
      examplePayload rfl).2.1 rfl⟩

end SuperMega
